import Mathlib

/-!
Verification of the ADP5055 regulator driver
(`drivers/regulator/adp5055-regulator.c`) against its natural-language
specification.  The driver is shallowly embedded: register addresses and
field masks are taken verbatim from the C defines, the configuration
resolver mirrors `adp5055_parse_fw` lines 107-141, and the register-write
phase mirrors lines 143-214.  Kernel helpers that live outside the given
source file (the linear-range voltage helpers, the regmap enable helpers)
are modelled from the specification, with their driving constants
(`adp5055_voltage_ranges`, `vsel_reg`, `enable_reg`, `enable_mask`) taken
from the source.
-/

namespace ADP5055

/-- Kernel `BIT(n)` macro: a single set bit at position `n`. -/
def BIT (n : Nat) : Nat := 1 <<< n

/-- Kernel `GENMASK(h, l)` macro restricted to byte-sized fields:
all bits from `l` to `h` inclusive set. -/
def GENMASK (h l : Nat) : Nat := ((1 <<< (h + 1 - l)) - 1) <<< l

/-- Lowest set bit position of a byte-sized mask (kernel `__bf_shf`),
computed structurally with 8 bits of fuel, enough for 8-bit registers. -/
def bfShfAux : Nat → Nat → Nat
  | 0, _ => 0
  | fuel + 1, m => if m % 2 = 1 then 0 else bfShfAux fuel (m / 2) + 1

/-- Shift amount of a mask, as used by the kernel `FIELD_PREP` macro. -/
def bfShf (mask : Nat) : Nat := bfShfAux 8 mask

/-- Kernel `FIELD_PREP(mask, val)`: shift `val` to the mask position and
truncate to the mask. -/
def FIELD_PREP (mask val : Nat) : Nat := (val <<< bfShf mask) &&& mask

/-! Register map, from the `ADP5055_` defines (source lines 20-33). -/

def ADP5055_CTRL123 : Nat := 0xD1
def ADP5055_CTRL_MODE1 : Nat := 0xD3
def ADP5055_CTRL_MODE2 : Nat := 0xD4
def ADP5055_DLY0 : Nat := 0xD5
def ADP5055_DLY1 : Nat := 0xD6
def ADP5055_DLY2 : Nat := 0xD7
def ADP5055_VID0 : Nat := 0xD8
def ADP5055_VID1 : Nat := 0xD9
def ADP5055_VID2 : Nat := 0xDA
def ADP5055_DVS_LIM0 : Nat := 0xDC
def ADP5055_DVS_LIM1 : Nat := 0xDD
def ADP5055_DVS_LIM2 : Nat := 0xDE
def ADP5055_FT_CFG : Nat := 0xDF
def ADP5055_PG_CFG : Nat := 0xE0

/-! Field masks, from the source lines 38-53. -/

def ADP5055_MASK_EN0 : Nat := BIT 0
def ADP5055_MASK_EN1 : Nat := BIT 1
def ADP5055_MASK_EN2 : Nat := BIT 2
def ADP5055_MASK_EN_MODE : Nat := GENMASK 1 0
def ADP5055_MASK_OCP_BLANKING : Nat := BIT 7
def ADP5055_MASK_PSM321 : Nat := GENMASK 6 4
def ADP5055_MASK_DIS : Nat := GENMASK 2 0
def ADP5055_MASK_DIS_DLY : Nat := GENMASK 6 4
def ADP5055_MASK_EN_DLY : Nat := GENMASK 2 0
def ADP5055_MASK_DVS_LIM_UPPER : Nat := GENMASK 7 4
def ADP5055_MASK_DVS_LIM_LOWER : Nat := GENMASK 3 0
def ADP5055_MASK_FAST_TRANSIENT3 : Nat := GENMASK 5 4
def ADP5055_MASK_FAST_TRANSIENT2 : Nat := GENMASK 3 2
def ADP5055_MASK_FAST_TRANSIENT1 : Nat := GENMASK 1 0
def ADP5055_MASK_DLY_PWRGD : Nat := BIT 4
def ADP5055_MASK_PWRGD321 : Nat := GENMASK 2 0

def ADP5055_MAX_VOUT : Nat := 790500
def ADP5055_MIN_VOUT : Nat := 408000

def ADP5055_NUM_CH : Nat := 3

/-- Valid register address range of the device, from `adp5055_reg_ranges`
(source lines 75-77): `regmap_reg_range(0xD1, 0xE0)`. -/
def adp5055_reg_ranges : List (Nat × Nat) := [(0xD1, 0xE0)]

/-- The configuration record `struct adp5055` (source lines 60-73),
without the regmap handle; the three-element `u32` arrays become
functions out of `Fin 3`. -/
structure Adp5055 where
  enable_mode_code : Nat
  ocp_blanking : Bool
  power_saving_mode_ch321_code : Nat
  output_discharge_function_ch321_code : Nat
  disable_delay_code_ch123 : Fin 3 → Nat
  enable_delay_code_ch123 : Fin 3 → Nat
  dvs_limit_upper_code_ch123 : Fin 3 → Nat
  dvs_limit_lower_code_ch123 : Fin 3 → Nat
  fast_transient_code_ch123 : Fin 3 → Nat
  delay_power_good : Bool
  mask_power_good_ch321_code : Nat

/-- External property source (spec §6): named optional scalars, booleans
(absent means false) and named optional `u32` arrays. -/
structure PropertySource where
  u32 : String → Option Nat
  bool : String → Bool
  u32Array : String → Option (List Nat)

/-- Semantics of `device_property_read_u32(dev, name, &x)`: on success the
value is stored, otherwise `x` keeps its previous contents; the returned
error code is ignored by this driver. -/
def readU32 (ps : PropertySource) (name : String) (cur : Nat) : Nat :=
  match ps.u32 name with
  | some v => v
  | none => cur

/-- Semantics of `device_property_read_u32_array(dev, name, &a[0], 3)`:
the destination is overwritten only when the property is present with
exactly 3 elements; on absence or wrong length the destination keeps its
previous contents (the driver ignores the returned error code, and the
kernel helper requires the exact size and does not write on failure). -/
def readU32Array3 (ps : PropertySource) (name : String) (cur : Fin 3 → Nat) :
    Fin 3 → Nat :=
  match ps.u32Array name with
  | some l => if l.length = 3 then fun i => l.getD i.val 0 else cur
  | none => cur

/-- Resolution phase of `adp5055_parse_fw` (source lines 107-141): first
the defaults (lines 107-119), then each property read in source order
(lines 121-141).  Note line 138 stores `device_property_read_bool` into
`delay_power_good` unconditionally, clobbering the line-118 default. -/
def adp5055_parse_fw_resolve (ps : PropertySource) : Adp5055 :=
  let c : Adp5055 :=
    { enable_mode_code := 0
      ocp_blanking := false
      power_saving_mode_ch321_code := 0
      output_discharge_function_ch321_code := 7
      disable_delay_code_ch123 := fun _ => 0
      enable_delay_code_ch123 := fun _ => 0
      dvs_limit_upper_code_ch123 := fun _ => 0
      dvs_limit_lower_code_ch123 := fun _ => 0
      fast_transient_code_ch123 := fun _ => 3
      delay_power_good := true
      mask_power_good_ch321_code := 0 }
  { c with
    enable_mode_code := readU32 ps "adi,enable-mode-code" c.enable_mode_code
    ocp_blanking := ps.bool "adi,ocp-blanking"
    power_saving_mode_ch321_code :=
      readU32 ps "adi,power-saving-mode-ch321-code" c.power_saving_mode_ch321_code
    output_discharge_function_ch321_code :=
      readU32 ps "adi,output-discharge-function-ch321-code"
        c.output_discharge_function_ch321_code
    disable_delay_code_ch123 :=
      readU32Array3 ps "adi,disable-delay-code-ch123" c.disable_delay_code_ch123
    enable_delay_code_ch123 :=
      readU32Array3 ps "adi,enable-delay-code-ch123" c.enable_delay_code_ch123
    dvs_limit_upper_code_ch123 :=
      readU32Array3 ps "adi,dvs-limit-upper-code-ch123" c.dvs_limit_upper_code_ch123
    dvs_limit_lower_code_ch123 :=
      readU32Array3 ps "adi,dvs-limit-lower-code-ch123" c.dvs_limit_lower_code_ch123
    fast_transient_code_ch123 :=
      readU32Array3 ps "adi,fast-transient-code-ch123" c.fast_transient_code_ch123
    delay_power_good := ps.bool "adi,delay-power-good"
    mask_power_good_ch321_code :=
      readU32 ps "adi,mask-power-good-ch321-code" c.mask_power_good_ch321_code }

/-- One byte write to one register address. -/
structure RegWrite where
  addr : Nat
  val : Nat
deriving DecidableEq, Repr

/-- Transport behaviour: the answer of `regmap_write` for the `k`-th write
call (0-indexed) carrying the given write; `none` is success, `some e` is
the (nonzero) error code `e`. -/
def Transport : Type := Nat → RegWrite → Option Int

/-- Transport that always succeeds. -/
def okTransport : Transport := fun _ _ => none

/-- Transport that fails exactly on the write call with 0-based index `k`,
returning error `e`, and succeeds on every other call. -/
def failAt (k : Nat) (e : Int) : Transport := fun j _ => if j = k then some e else none

/-- Register-write sequence of `adp5055_parse_fw` (source lines 143-214)
as written in the C: the ten `regmap_write` calls in source order, each
value built from `FIELD_PREP` on the source masks. -/
def codePlan (c : Adp5055) : List RegWrite :=
  [ ⟨ADP5055_CTRL_MODE1, FIELD_PREP ADP5055_MASK_EN_MODE c.enable_mode_code⟩,
    ⟨ADP5055_CTRL_MODE2,
      FIELD_PREP ADP5055_MASK_OCP_BLANKING c.ocp_blanking.toNat |||
      FIELD_PREP ADP5055_MASK_PSM321 c.power_saving_mode_ch321_code |||
      FIELD_PREP ADP5055_MASK_DIS c.output_discharge_function_ch321_code⟩,
    ⟨ADP5055_DLY0,
      FIELD_PREP ADP5055_MASK_DIS_DLY (c.disable_delay_code_ch123 0) |||
      FIELD_PREP ADP5055_MASK_EN_DLY (c.enable_delay_code_ch123 0)⟩,
    ⟨ADP5055_DLY1,
      FIELD_PREP ADP5055_MASK_DIS_DLY (c.disable_delay_code_ch123 1) |||
      FIELD_PREP ADP5055_MASK_EN_DLY (c.enable_delay_code_ch123 1)⟩,
    ⟨ADP5055_DLY2,
      FIELD_PREP ADP5055_MASK_DIS_DLY (c.disable_delay_code_ch123 2) |||
      FIELD_PREP ADP5055_MASK_EN_DLY (c.enable_delay_code_ch123 2)⟩,
    ⟨ADP5055_DVS_LIM0,
      FIELD_PREP ADP5055_MASK_DVS_LIM_UPPER (c.dvs_limit_upper_code_ch123 0) |||
      FIELD_PREP ADP5055_MASK_DVS_LIM_LOWER (c.dvs_limit_lower_code_ch123 0)⟩,
    ⟨ADP5055_DVS_LIM1,
      FIELD_PREP ADP5055_MASK_DVS_LIM_UPPER (c.dvs_limit_upper_code_ch123 1) |||
      FIELD_PREP ADP5055_MASK_DVS_LIM_LOWER (c.dvs_limit_lower_code_ch123 1)⟩,
    ⟨ADP5055_DVS_LIM2,
      FIELD_PREP ADP5055_MASK_DVS_LIM_UPPER (c.dvs_limit_upper_code_ch123 2) |||
      FIELD_PREP ADP5055_MASK_DVS_LIM_LOWER (c.dvs_limit_lower_code_ch123 2)⟩,
    ⟨ADP5055_FT_CFG,
      FIELD_PREP ADP5055_MASK_FAST_TRANSIENT1 (c.fast_transient_code_ch123 0) |||
      FIELD_PREP ADP5055_MASK_FAST_TRANSIENT2 (c.fast_transient_code_ch123 1) |||
      FIELD_PREP ADP5055_MASK_FAST_TRANSIENT3 (c.fast_transient_code_ch123 2)⟩,
    ⟨ADP5055_PG_CFG,
      FIELD_PREP ADP5055_MASK_DLY_PWRGD c.delay_power_good.toNat |||
      FIELD_PREP ADP5055_MASK_PWRGD321 c.mask_power_good_ch321_code⟩ ]

/-- Issue a list of writes through a transport, starting at call index
`k`: every successful write is recorded; the first failure stops the
sequence immediately (the `if (ret) return ret;` after each
`regmap_write`) and returns the transport error. -/
def applyWrites (t : Transport) : List RegWrite → Nat → List RegWrite × Option Int
  | [], _ => ([], none)
  | w :: ws, k =>
    match t k w with
    | some e => ([], some e)
    | none =>
      let r := applyWrites t ws (k + 1)
      (w :: r.1, r.2)

/-- Write phase of `adp5055_parse_fw` (source lines 143-214): issue the
ten writes in order, aborting on the first transport failure. -/
def adp5055_apply (c : Adp5055) (t : Transport) : List RegWrite × Option Int :=
  applyWrites t (codePlan c) 0

/-- Whole of `adp5055_parse_fw` (source lines 101-215): resolve the
configuration from the property source, then issue the register writes.
Returns the issued writes and the error code (`none` is 0/success). -/
def adp5055_parse_fw (ps : PropertySource) (t : Transport) :
    List RegWrite × Option Int :=
  adp5055_apply (adp5055_parse_fw_resolve ps) t

/-! Spec-side definitions: the Field Codec of spec §4.1, the write plan
as §4.4 words it, and models of the kernel helpers referenced by
`adp5055_ops` that are outside the given source file. -/

/-- Field Codec `pack` (spec §4.1): mask `value` to `width` bits, then
shift left by `shift`. -/
def pack (value width shift : Nat) : Nat := (value &&& (2 ^ width - 1)) <<< shift

/-- Field Codec `unpack` (spec §4.1): shift right by `shift`, then mask
to `width` bits. -/
def unpack (b width shift : Nat) : Nat := (b >>> shift) &&& (2 ^ width - 1)

/-- The ten-write plan exactly as spec §4.4 words it: target registers in
the fixed order, each byte the bitwise-OR of the register's fields packed
into their documented bit ranges. -/
def specPlan (c : Adp5055) : List RegWrite :=
  [ ⟨0xD3, pack c.enable_mode_code 2 0⟩,
    ⟨0xD4, pack c.ocp_blanking.toNat 1 7 |||
           pack c.power_saving_mode_ch321_code 3 4 |||
           pack c.output_discharge_function_ch321_code 3 0⟩,
    ⟨0xD5, pack (c.disable_delay_code_ch123 0) 3 4 |||
           pack (c.enable_delay_code_ch123 0) 3 0⟩,
    ⟨0xD6, pack (c.disable_delay_code_ch123 1) 3 4 |||
           pack (c.enable_delay_code_ch123 1) 3 0⟩,
    ⟨0xD7, pack (c.disable_delay_code_ch123 2) 3 4 |||
           pack (c.enable_delay_code_ch123 2) 3 0⟩,
    ⟨0xDC, pack (c.dvs_limit_upper_code_ch123 0) 4 4 |||
           pack (c.dvs_limit_lower_code_ch123 0) 4 0⟩,
    ⟨0xDD, pack (c.dvs_limit_upper_code_ch123 1) 4 4 |||
           pack (c.dvs_limit_lower_code_ch123 1) 4 0⟩,
    ⟨0xDE, pack (c.dvs_limit_upper_code_ch123 2) 4 4 |||
           pack (c.dvs_limit_lower_code_ch123 2) 4 0⟩,
    ⟨0xDF, pack (c.fast_transient_code_ch123 0) 2 0 |||
           pack (c.fast_transient_code_ch123 1) 2 2 |||
           pack (c.fast_transient_code_ch123 2) 2 4⟩,
    ⟨0xE0, pack c.delay_power_good.toNat 1 4 |||
           pack c.mask_power_good_ch321_code 3 0⟩ ]

/-- Error of the linear voltage map (spec §7). -/
inductive MapError where
  | outOfRange
deriving DecidableEq, Repr

/-- Modelled from the spec: `regulator_list_voltage_linear_range` is not
in the given source file; per spec §4.2, the selector-to-microvolt map of
the single linear range `REGULATOR_LINEAR_RANGE(408000, 0, 255, 1500)`
from `adp5055_voltage_ranges` (source lines 97-99) is
`base + code * step`. -/
def code_to_microvolt (code : Nat) : Nat := 408000 + code * 1500

/-- Modelled from the spec: `regulator_map_voltage_linear_range` is not
in the given source file; per spec §4.2, the map selects the minimal code
whose voltage is at least the request, `ceil((voltage - base) / step)`,
and fails with `OutOfRange` outside `[408000, 790500]`. -/
def microvolt_to_code (v : Nat) : Except MapError Nat :=
  if v < ADP5055_MIN_VOUT ∨ ADP5055_MAX_VOUT < v then
    Except.error MapError.outOfRange
  else
    Except.ok ((v - 408000 + 1499) / 1500)

/-- Register file of the device: contents for each register address. -/
def RegFile : Type := Nat → Nat

/-- Commit a list of successful register writes to the register file, in
order. -/
def commitWrites (rf : RegFile) : List RegWrite → RegFile
  | [] => rf
  | w :: ws => commitWrites (fun a => if a = w.addr then w.val else rf a) ws

/-- Per-channel enable mask `ADP5055_MASK_EN0/1/2` selected by channel
index, as the `ADP5055_REG` macro does with `enable_mask` (source lines
227-247). -/
def enableMask : Fin 3 → Nat
  | 0 => ADP5055_MASK_EN0
  | 1 => ADP5055_MASK_EN1
  | 2 => ADP5055_MASK_EN2

/-- Per-channel voltage-selector register `ADP5055_VID0/1/2` selected by
channel index, as the `ADP5055_REG` macro does with `vsel_reg` (source
lines 227-247). -/
def vselReg : Fin 3 → Nat
  | 0 => ADP5055_VID0
  | 1 => ADP5055_VID1
  | 2 => ADP5055_VID2

/-- Modelled from the spec: `regulator_enable_regmap` is not in the given
source file; per spec §4.5 it is a read-modify-write on the shared enable
register `ADP5055_CTRL123` setting the channel's bit
(`enable_mask = ADP5055_MASK_EN<i>`, source lines 235-236). -/
def channelEnable (i : Fin 3) (rf : RegFile) : RegFile :=
  fun a => if a = ADP5055_CTRL123 then rf ADP5055_CTRL123 ||| enableMask i else rf a

/-- Modelled from the spec: `regulator_is_enabled_regmap` is not in the
given source file; per spec §4.5 it reads the shared enable register and
tests the channel's bit. -/
def channelIsEnabled (i : Fin 3) (rf : RegFile) : Bool :=
  rf ADP5055_CTRL123 &&& enableMask i != 0

/-- Modelled from the spec: `regulator_get_voltage_sel_regmap` is not in
the given source file; per spec §6 it reads the channel's selector
register (`vsel_mask = GENMASK(7, 0)`, source line 234). -/
def getVoltageSel (i : Fin 3) (rf : RegFile) : Nat :=
  rf (vselReg i) &&& GENMASK 7 0

/-- Every register address any operation of this system touches: the ten
configuration-write targets, the shared enable register, and the three
per-channel voltage-selector registers. -/
def adp5055_touched_regs (c : Adp5055) : List Nat :=
  (codePlan c).map RegWrite.addr ++
    [ADP5055_CTRL123, ADP5055_VID0, ADP5055_VID1, ADP5055_VID2]

/-- Property source with no properties at all. -/
def emptyPS : PropertySource :=
  { u32 := fun _ => none
    bool := fun _ => false
    u32Array := fun _ => none }

/-- Property source holding exactly one named `u32` array. -/
def psArr (name : String) (arr : List Nat) : PropertySource :=
  { u32 := fun _ => none
    bool := fun _ => false
    u32Array := fun n => if n = name then some arr else none }

/-! Helper lemmas shared by the claim theorems. -/

/-- Masking after a shift equals shifting a masked value: the bridge
between the kernel `FIELD_PREP` form `(v <<< s) &&& (m <<< s)` and the
Field Codec form `(v &&& m) <<< s`. -/
theorem shiftLeft_and_shiftLeft (v m s : Nat) :
    (v <<< s) &&& (m <<< s) = (v &&& m) <<< s := by
  apply Nat.eq_of_testBit_eq
  intro i
  simp only [Nat.testBit_and, Nat.testBit_shiftLeft]
  by_cases h : s ≤ i <;> simp [h]

theorem fp_en_mode (v : Nat) : FIELD_PREP ADP5055_MASK_EN_MODE v = pack v 2 0 :=
  shiftLeft_and_shiftLeft v 3 0

theorem fp_ocp (v : Nat) : FIELD_PREP ADP5055_MASK_OCP_BLANKING v = pack v 1 7 :=
  shiftLeft_and_shiftLeft v 1 7

theorem fp_psm (v : Nat) : FIELD_PREP ADP5055_MASK_PSM321 v = pack v 3 4 :=
  shiftLeft_and_shiftLeft v 7 4

theorem fp_dis (v : Nat) : FIELD_PREP ADP5055_MASK_DIS v = pack v 3 0 :=
  shiftLeft_and_shiftLeft v 7 0

theorem fp_dis_dly (v : Nat) : FIELD_PREP ADP5055_MASK_DIS_DLY v = pack v 3 4 :=
  shiftLeft_and_shiftLeft v 7 4

theorem fp_en_dly (v : Nat) : FIELD_PREP ADP5055_MASK_EN_DLY v = pack v 3 0 :=
  shiftLeft_and_shiftLeft v 7 0

theorem fp_dvs_up (v : Nat) : FIELD_PREP ADP5055_MASK_DVS_LIM_UPPER v = pack v 4 4 :=
  shiftLeft_and_shiftLeft v 15 4

theorem fp_dvs_lo (v : Nat) : FIELD_PREP ADP5055_MASK_DVS_LIM_LOWER v = pack v 4 0 :=
  shiftLeft_and_shiftLeft v 15 0

theorem fp_ft1 (v : Nat) : FIELD_PREP ADP5055_MASK_FAST_TRANSIENT1 v = pack v 2 0 :=
  shiftLeft_and_shiftLeft v 3 0

theorem fp_ft2 (v : Nat) : FIELD_PREP ADP5055_MASK_FAST_TRANSIENT2 v = pack v 2 2 :=
  shiftLeft_and_shiftLeft v 3 2

theorem fp_ft3 (v : Nat) : FIELD_PREP ADP5055_MASK_FAST_TRANSIENT3 v = pack v 2 4 :=
  shiftLeft_and_shiftLeft v 3 4

theorem fp_dly_pwrgd (v : Nat) : FIELD_PREP ADP5055_MASK_DLY_PWRGD v = pack v 1 4 :=
  shiftLeft_and_shiftLeft v 1 4

theorem fp_pwrgd (v : Nat) : FIELD_PREP ADP5055_MASK_PWRGD321 v = pack v 3 0 :=
  shiftLeft_and_shiftLeft v 7 0

/-- The write plan as the C builds it coincides, register by register,
with the plan as the spec words it. -/
theorem codePlan_eq_specPlan (c : Adp5055) : codePlan c = specPlan c := by
  simp [codePlan, specPlan, fp_en_mode, fp_ocp, fp_psm, fp_dis, fp_dis_dly,
    fp_en_dly, fp_dvs_up, fp_dvs_lo, fp_ft1, fp_ft2, fp_ft3, fp_dly_pwrgd,
    fp_pwrgd, ADP5055_CTRL_MODE1, ADP5055_CTRL_MODE2, ADP5055_DLY0,
    ADP5055_DLY1, ADP5055_DLY2, ADP5055_DVS_LIM0, ADP5055_DVS_LIM1,
    ADP5055_DVS_LIM2, ADP5055_FT_CFG, ADP5055_PG_CFG]

/-- With a wrong-length array the property source behaves, for this
resolver, exactly as if the property were absent: the previous (default)
contents are kept. -/
theorem readU32Array3_psArr (name n : String) (arr : List Nat)
    (h : arr.length ≠ 3) (cur : Fin 3 → Nat) :
    readU32Array3 (psArr name arr) n cur = cur := by
  by_cases hn : n = name <;> simp [readU32Array3, psArr, hn, h]

/-- Resolving from a source holding one wrong-length array gives the same
record as resolving from the empty source. -/
theorem resolve_psArr_wrong_length (name : String) (arr : List Nat)
    (h : arr.length ≠ 3) :
    adp5055_parse_fw_resolve (psArr name arr) = adp5055_parse_fw_resolve emptyPS := by
  unfold adp5055_parse_fw_resolve
  simp only [readU32Array3_psArr name _ arr h]
  simp [readU32, readU32Array3, psArr, emptyPS]

/-! Claim theorems. -/

/-- C1: resolving from an empty property source yields the documented
defaults for every field except the power-good-delay flag: enable-mode 0,
OCP-blanking false, power-saving-mode 0, output-discharge 7, all
delay/limit codes 0, fast-transient 3 per channel, power-good-mask 0 —
but `delay_power_good` comes out `false`, not `true` as documented,
because line 138 unconditionally overwrites the line-118 default `1` with
the result of `device_property_read_bool`, which is `false` when the
property is absent. -/
theorem adp5055_resolve_empty_defaults_eval :
    (adp5055_parse_fw_resolve emptyPS).enable_mode_code = 0 ∧
    (adp5055_parse_fw_resolve emptyPS).ocp_blanking = false ∧
    (adp5055_parse_fw_resolve emptyPS).power_saving_mode_ch321_code = 0 ∧
    (adp5055_parse_fw_resolve emptyPS).output_discharge_function_ch321_code = 7 ∧
    (∀ i : Fin 3, (adp5055_parse_fw_resolve emptyPS).disable_delay_code_ch123 i = 0) ∧
    (∀ i : Fin 3, (adp5055_parse_fw_resolve emptyPS).enable_delay_code_ch123 i = 0) ∧
    (∀ i : Fin 3, (adp5055_parse_fw_resolve emptyPS).dvs_limit_upper_code_ch123 i = 0) ∧
    (∀ i : Fin 3, (adp5055_parse_fw_resolve emptyPS).dvs_limit_lower_code_ch123 i = 0) ∧
    (∀ i : Fin 3, (adp5055_parse_fw_resolve emptyPS).fast_transient_code_ch123 i = 3) ∧
    (adp5055_parse_fw_resolve emptyPS).delay_power_good = false ∧
    (adp5055_parse_fw_resolve emptyPS).mask_power_good_ch321_code = 0 := by
  decide

/-- C2 counterexample: with the array property
`adi,disable-delay-code-ch123` present with length 2 (wrong length), the
resolve call does not fail: the whole of `adp5055_parse_fw` returns
success, the register-write phase is reached and issues all 10 writes,
and the record carries the defaults for the malformed field.  This
contradicts the claim that a wrong-length array aborts resolution with a
`ConfigError` before any register write. -/
theorem resolve_wrong_length_no_config_error :
    (adp5055_parse_fw (psArr "adi,disable-delay-code-ch123" [1, 2]) okTransport).2
      = none ∧
    (adp5055_parse_fw (psArr "adi,disable-delay-code-ch123" [1, 2]) okTransport).1.length
      = 10 ∧
    (∀ i : Fin 3,
      (adp5055_parse_fw_resolve
        (psArr "adi,disable-delay-code-ch123" [1, 2])).disable_delay_code_ch123 i = 0) := by
  decide

/-- C2 (amended): if a named array parameter is present in the property
source but has the wrong length, the driver ignores the malformed
property (the error code of the array read is discarded): the resolved
record is exactly the one resolved from an empty source, no error is
raised, and the register-write phase runs in full, issuing all 10
writes. -/
theorem resolve_wrong_length_ignored (name : String) (arr : List Nat)
    (h : arr.length ≠ 3) :
    adp5055_parse_fw (psArr name arr) okTransport
      = adp5055_parse_fw emptyPS okTransport ∧
    (adp5055_parse_fw (psArr name arr) okTransport).2 = none ∧
    (adp5055_parse_fw (psArr name arr) okTransport).1.length = 10 := by
  have hr := resolve_psArr_wrong_length name arr h
  refine ⟨?_, ?_, ?_⟩ <;> unfold adp5055_parse_fw <;> rw [hr] <;> decide

/-- C2 witness: a concrete wrong-length array (4 elements for the
3-element `adi,fast-transient-code-ch123`) is ignored. -/
theorem resolve_wrong_length_ignored_witness :
    adp5055_parse_fw (psArr "adi,fast-transient-code-ch123" [1, 2, 3, 4]) okTransport
      = adp5055_parse_fw emptyPS okTransport ∧
    (adp5055_parse_fw (psArr "adi,fast-transient-code-ch123" [1, 2, 3, 4]) okTransport).2
      = none ∧
    (adp5055_parse_fw (psArr "adi,fast-transient-code-ch123" [1, 2, 3, 4]) okTransport).1.length
      = 10 :=
  resolve_wrong_length_ignored "adi,fast-transient-code-ch123" [1, 2, 3, 4] (by decide)

/-- C3: for every configuration record, the write phase under an
always-succeeding transport issues exactly the 10 writes of the spec §4.4
plan, in the fixed register order, each byte the bitwise-OR of the
register's fields packed into their documented bit ranges. -/
theorem build_and_apply_emits_spec_plan (c : Adp5055) :
    adp5055_apply c okTransport = (specPlan c, none) ∧
    (specPlan c).map RegWrite.addr =
      [ADP5055_CTRL_MODE1, ADP5055_CTRL_MODE2, ADP5055_DLY0, ADP5055_DLY1,
       ADP5055_DLY2, ADP5055_DVS_LIM0, ADP5055_DVS_LIM1, ADP5055_DVS_LIM2,
       ADP5055_FT_CFG, ADP5055_PG_CFG] ∧
    (specPlan c).length = 10 := by
  refine ⟨?_, ?_, ?_⟩
  · rw [adp5055_apply, codePlan_eq_specPlan]
    simp [applyWrites, okTransport, specPlan]
  · simp [specPlan, ADP5055_CTRL_MODE1, ADP5055_CTRL_MODE2, ADP5055_DLY0,
      ADP5055_DLY1, ADP5055_DLY2, ADP5055_DVS_LIM0, ADP5055_DVS_LIM1,
      ADP5055_DVS_LIM2, ADP5055_FT_CFG, ADP5055_PG_CFG]
  · simp [specPlan]

/-- C4: if the transport fails on the `n`-th write (1-based, failing call
index `n - 1`) and succeeds before it, the write phase stops immediately
with the transport's error: exactly the first `n - 1` writes of the plan
were issued and no later write occurs. -/
theorem build_and_apply_aborts_on_failure (c : Adp5055) (n : Nat) (e : Int)
    (h1 : 1 ≤ n) (h2 : n ≤ 10) :
    adp5055_apply c (failAt (n - 1) e) = ((codePlan c).take (n - 1), some e) ∧
    ((codePlan c).take (n - 1)).length = n - 1 := by
  interval_cases n <;>
    simp [adp5055_apply, codePlan, applyWrites, failAt]

/-- C4 witness: a failure on write #3 (call index 2) aborts the plan with
the transport error after exactly the first 2 writes. -/
theorem build_and_apply_aborts_on_failure_witness :
    adp5055_apply (adp5055_parse_fw_resolve emptyPS) (failAt 2 (-5)) =
      ((codePlan (adp5055_parse_fw_resolve emptyPS)).take 2, some (-5)) ∧
    ((codePlan (adp5055_parse_fw_resolve emptyPS)).take 2).length = 2 :=
  build_and_apply_aborts_on_failure (adp5055_parse_fw_resolve emptyPS) 3 (-5)
    (by decide) (by decide)

/-- C5: the selector-to-microvolt map is `408000 + code * 1500`, hits
exactly 408000 at code 0 and 790500 at code 255, round-trips through
`microvolt_to_code` for every valid code, and is strictly monotonic. -/
theorem voltage_map_round_trip :
    code_to_microvolt 0 = 408000 ∧
    code_to_microvolt 255 = 790500 ∧
    (∀ code : Nat, code ≤ 255 →
      microvolt_to_code (code_to_microvolt code) = Except.ok code) ∧
    (∀ c1 c2 : Nat, c1 < c2 → code_to_microvolt c1 < code_to_microvolt c2) := by
  refine ⟨rfl, rfl, ?_, ?_⟩
  · intro code h
    unfold microvolt_to_code code_to_microvolt ADP5055_MIN_VOUT ADP5055_MAX_VOUT
    rw [if_neg (by omega)]
    congr 1
    omega
  · intro c1 c2 h
    unfold code_to_microvolt
    omega

/-- C5 witness: the round trip at code 7 and strict monotonicity at
3 < 4, obtained from the general theorem. -/
theorem voltage_map_round_trip_witness :
    microvolt_to_code (code_to_microvolt 7) = Except.ok 7 ∧
    code_to_microvolt 3 < code_to_microvolt 4 :=
  ⟨voltage_map_round_trip.2.2.1 7 (by decide),
   voltage_map_round_trip.2.2.2 3 4 (by decide)⟩

/-- C6: `microvolt_to_code` fails with `OutOfRange` exactly when the
requested voltage lies outside `[408000, 790500]`; inside the range it
returns `ceil((v - 408000) / 1500)`, which is the minimal code whose
mapped voltage is at least the request, and that code is a valid
selector (at most 255). -/
theorem microvolt_to_code_range_spec (v : Nat) :
    (microvolt_to_code v = Except.error MapError.outOfRange ↔
      v < 408000 ∨ 790500 < v) ∧
    (408000 ≤ v → v ≤ 790500 →
      microvolt_to_code v = Except.ok ((v - 408000 + 1499) / 1500) ∧
      v ≤ code_to_microvolt ((v - 408000 + 1499) / 1500) ∧
      (∀ c : Nat, v ≤ code_to_microvolt c → (v - 408000 + 1499) / 1500 ≤ c) ∧
      (v - 408000 + 1499) / 1500 ≤ 255) := by
  constructor
  · unfold microvolt_to_code ADP5055_MIN_VOUT ADP5055_MAX_VOUT
    by_cases h : v < 408000 ∨ 790500 < v <;> simp [h]
  · intro h1 h2
    refine ⟨?_, ?_, ?_, ?_⟩
    · unfold microvolt_to_code ADP5055_MIN_VOUT ADP5055_MAX_VOUT
      rw [if_neg (by omega)]
    · unfold code_to_microvolt
      omega
    · intro c hc
      unfold code_to_microvolt at hc
      omega
    · omega

/-- C6 witness: 500000 µV is in range and maps to the minimal code whose
voltage reaches it; 400000 µV and 800000 µV are rejected. -/
theorem microvolt_to_code_range_spec_witness :
    (microvolt_to_code 400000 = Except.error MapError.outOfRange) ∧
    (microvolt_to_code 800000 = Except.error MapError.outOfRange) ∧
    microvolt_to_code 500000 = Except.ok ((500000 - 408000 + 1499) / 1500) ∧
    500000 ≤ code_to_microvolt ((500000 - 408000 + 1499) / 1500) ∧
    (∀ c : Nat, 500000 ≤ code_to_microvolt c → (500000 - 408000 + 1499) / 1500 ≤ c) ∧
    (500000 - 408000 + 1499) / 1500 ≤ 255 :=
  ⟨(microvolt_to_code_range_spec 400000).1.mpr (by decide),
   (microvolt_to_code_range_spec 800000).1.mpr (by decide),
   (microvolt_to_code_range_spec 500000).2 (by decide) (by decide)⟩

/-- C7: the Field Codec round-trips: for a value representable in
`width` bits, packed into a field that fits in the byte, `unpack` after
`pack` gives the value back. -/
theorem pack_unpack_round_trip (value width shift : Nat)
    (h1 : value < 2 ^ width) (_h2 : shift + width ≤ 8) :
    unpack (pack value width shift) width shift = value := by
  unfold pack unpack
  rw [Nat.shiftLeft_eq, Nat.shiftRight_eq_div_pow,
    Nat.mul_div_cancel _ (Nat.two_pow_pos shift), Nat.and_assoc, Nat.and_self,
    Nat.and_pow_two_sub_one_eq_mod, Nat.mod_eq_of_lt h1]

/-- C7 witness: packing value 5 into a 3-bit field at shift 4 and
unpacking recovers 5. -/
theorem pack_unpack_round_trip_witness :
    5 < 2 ^ 3 ∧ 4 + 3 ≤ 8 ∧ unpack (pack 5 3 4) 3 4 = 5 :=
  ⟨by decide, by decide, pack_unpack_round_trip 5 3 4 (by decide) (by decide)⟩

/-- Per-channel enable mask is the single bit of the channel index. -/
theorem enableMask_eq (i : Fin 3) : enableMask i = 2 ^ i.val := by
  fin_cases i <;> decide

/-- C8: enabling channel `i` is a read-modify-write that sets only bit
`i` of the shared enable register: afterwards `is_enabled(i)` is true,
every other bit of the shared register is unchanged, and every other
register is untouched. -/
theorem enable_sets_only_own_bit (i : Fin 3) (rf : RegFile) :
    channelIsEnabled i (channelEnable i rf) = true ∧
    (∀ j : Nat, j ≠ i.val →
      ((channelEnable i rf) ADP5055_CTRL123).testBit j
        = (rf ADP5055_CTRL123).testBit j) ∧
    (∀ a : Nat, a ≠ ADP5055_CTRL123 → channelEnable i rf a = rf a) := by
  refine ⟨?_, ?_, ?_⟩
  · unfold channelIsEnabled channelEnable
    rw [if_pos rfl, enableMask_eq]
    simp only [bne_iff_ne, ne_eq]
    intro h0
    have hb : ((rf ADP5055_CTRL123 ||| 2 ^ i.val) &&& 2 ^ i.val).testBit i.val
        = true := by
      simp [Nat.testBit_and, Nat.testBit_or, Nat.testBit_two_pow_self]
    rw [h0] at hb
    simp [Nat.zero_testBit] at hb
  · intro j hj
    unfold channelEnable
    rw [if_pos rfl, enableMask_eq, Nat.testBit_or,
      Nat.testBit_two_pow_of_ne (Ne.symm hj), Bool.or_false]
  · intro a ha
    unfold channelEnable
    rw [if_neg ha]

/-- C8 witness: on a register file whose shared enable register holds
`0b101` (channels 0 and 2 enabled, channel 1 disabled), enabling channel
1 makes it enabled and leaves the bits of channels 0 and 2 and the VID0
register unchanged. -/
theorem enable_sets_only_own_bit_witness :
    channelIsEnabled 1 (channelEnable 1 (fun _ => 5)) = true ∧
    ((channelEnable 1 (fun _ => 5)) ADP5055_CTRL123).testBit 0
      = (((fun _ => 5) : RegFile) ADP5055_CTRL123).testBit 0 ∧
    ((channelEnable 1 (fun _ => 5)) ADP5055_CTRL123).testBit 2
      = (((fun _ => 5) : RegFile) ADP5055_CTRL123).testBit 2 ∧
    channelEnable 1 (fun _ => 5) ADP5055_VID0
      = ((fun _ => 5) : RegFile) ADP5055_VID0 :=
  ⟨(enable_sets_only_own_bit 1 (fun _ => 5)).1,
   (enable_sets_only_own_bit 1 (fun _ => 5)).2.1 0 (by decide),
   (enable_sets_only_own_bit 1 (fun _ => 5)).2.1 2 (by decide),
   (enable_sets_only_own_bit 1 (fun _ => 5)).2.2 ADP5055_VID0 (by decide)⟩

/-- C9: every register address read or written by any operation of this
system — the ten configuration writes, the shared enable register and
the per-channel voltage-selector registers — lies in the valid device
range `adp5055_reg_ranges`, i.e. 0xD1 to 0xE0 inclusive. -/
theorem touched_registers_in_valid_range (c : Adp5055) (a : Nat)
    (h : a ∈ adp5055_touched_regs c) :
    ∃ r ∈ adp5055_reg_ranges, r.1 ≤ a ∧ a ≤ r.2 := by
  refine ⟨(0xD1, 0xE0), by simp [adp5055_reg_ranges], ?_⟩
  simp [adp5055_touched_regs, codePlan, ADP5055_CTRL123, ADP5055_CTRL_MODE1,
    ADP5055_CTRL_MODE2, ADP5055_DLY0, ADP5055_DLY1, ADP5055_DLY2,
    ADP5055_VID0, ADP5055_VID1, ADP5055_VID2, ADP5055_DVS_LIM0,
    ADP5055_DVS_LIM1, ADP5055_DVS_LIM2, ADP5055_FT_CFG, ADP5055_PG_CFG] at h
  omega

/-- C9 witness: the voltage-selector register of channel 2 is within the
valid range. -/
theorem touched_registers_in_valid_range_witness :
    ∃ r ∈ adp5055_reg_ranges, r.1 ≤ ADP5055_VID2 ∧ ADP5055_VID2 ≤ r.2 :=
  touched_registers_in_valid_range (adp5055_parse_fw_resolve emptyPS)
    ADP5055_VID2 (by decide)

/-- C10: the configuration write plan targets only the ten configuration
registers; committing it to any register file leaves the shared
channel-enable register 0xD1 and the voltage-selector registers
0xD8-0xDA unchanged, so every channel's enable state and selected
voltage code are as before. -/
theorem apply_config_preserves_enable_and_vsel (c : Adp5055) (rf : RegFile) :
    (codePlan c).map RegWrite.addr =
      [0xD3, 0xD4, 0xD5, 0xD6, 0xD7, 0xDC, 0xDD, 0xDE, 0xDF, 0xE0] ∧
    commitWrites rf (codePlan c) ADP5055_CTRL123 = rf ADP5055_CTRL123 ∧
    (∀ i : Fin 3, commitWrites rf (codePlan c) (vselReg i) = rf (vselReg i)) ∧
    (∀ i : Fin 3,
      channelIsEnabled i (commitWrites rf (codePlan c)) = channelIsEnabled i rf) ∧
    (∀ i : Fin 3,
      getVoltageSel i (commitWrites rf (codePlan c)) = getVoltageSel i rf) := by
  have hd1 : commitWrites rf (codePlan c) ADP5055_CTRL123 = rf ADP5055_CTRL123 := by
    simp [commitWrites, codePlan, ADP5055_CTRL123, ADP5055_CTRL_MODE1,
      ADP5055_CTRL_MODE2, ADP5055_DLY0, ADP5055_DLY1, ADP5055_DLY2,
      ADP5055_DVS_LIM0, ADP5055_DVS_LIM1, ADP5055_DVS_LIM2, ADP5055_FT_CFG,
      ADP5055_PG_CFG]
  have hvid : ∀ i : Fin 3,
      commitWrites rf (codePlan c) (vselReg i) = rf (vselReg i) := by
    intro i
    fin_cases i <;>
      simp [vselReg, commitWrites, codePlan, ADP5055_VID0, ADP5055_VID1,
        ADP5055_VID2, ADP5055_CTRL_MODE1, ADP5055_CTRL_MODE2, ADP5055_DLY0,
        ADP5055_DLY1, ADP5055_DLY2, ADP5055_DVS_LIM0, ADP5055_DVS_LIM1,
        ADP5055_DVS_LIM2, ADP5055_FT_CFG, ADP5055_PG_CFG]
  refine ⟨?_, hd1, hvid, ?_, ?_⟩
  · simp [codePlan, ADP5055_CTRL_MODE1, ADP5055_CTRL_MODE2, ADP5055_DLY0,
      ADP5055_DLY1, ADP5055_DLY2, ADP5055_DVS_LIM0, ADP5055_DVS_LIM1,
      ADP5055_DVS_LIM2, ADP5055_FT_CFG, ADP5055_PG_CFG]
  · intro i
    unfold channelIsEnabled
    rw [hd1]
  · intro i
    unfold getVoltageSel
    rw [hvid i]

end ADP5055
